import Mathlib

/-!
Verification of the concurrency and lifecycle primitives in
`src/src-tauri/src/util.rs`: the debug-instrumented reader/writer lock
`RwLockDebug`, its per-acquisition watchdog thread, the shared backtrace
record, and the drop-callback guard `ThreadWatchdog`.

The embedding models the record cell, the watchdog loop body and the
straight-line event order of `read`/`write` as pure data; instants are
nanoseconds of a monotonic clock.
-/

namespace Gmpublisher

/-- A captured call stack (models `backtrace::Backtrace`); the numeric id
distinguishes distinct captures, their contents are irrelevant here. -/
structure Backtrace where
  id : Nat
deriving DecidableEq

/-- A monotonic-clock instant in nanoseconds (models `std::time::Instant`). -/
abbrev Instant := Nat

/-- Contents of the shared record cell:
`Option<(backtrace::Backtrace, std::time::Instant)>` (util.rs line 170). -/
abbrev BacktraceRecord := Option (Backtrace × Instant)

/-- State of the `parking_lot::RwLock` guarding the shared record cell, as
seen by a watchdog at the moment it accesses the cell. -/
inductive RecLockState where
  | free
  | readHeld (n : Nat)
  | writeHeld
deriving DecidableEq

/-- `try_write` on a `parking_lot::RwLock` succeeds exactly when the lock is
currently unheld; it never waits. -/
def tryWriteSucceeds : RecLockState → Bool
  | .free => true
  | .readHeld _ => false
  | .writeHeld => false

/-- A blocking `read()` on a `parking_lot::RwLock` has to wait exactly when a
writer currently holds the lock. -/
def readWaits : RecLockState → Bool
  | .writeHeld => true
  | .readHeld _ => false
  | .free => false

/-- Outcome of the watchdog fetching the shared record (util.rs 200-202):
the contents obtained, the contents the cell holds afterwards, and whether
the access performed a blocking acquisition. -/
structure FetchResult where
  contents : BacktraceRecord
  newRecord : BacktraceRecord
  blocked : Bool
deriving DecidableEq

/-- util.rs lines 200-202: `backtrace.try_write()` is attempted first; on
success the contents are removed (`backtrace_w.take()`), on failure the
current contents are cloned through a blocking `backtrace.read()`, which
leaves the cell unchanged. -/
def fetchRecord (ls : RecLockState) (rec : BacktraceRecord) : FetchResult :=
  if tryWriteSucceeds ls then
    { contents := rec, newRecord := none, blocked := false }
  else
    { contents := rec, newRecord := rec, blocked := readWaits ls }

def nsPerSec : Nat := 1000000000

def nsPerMilli : Nat := 1000000

def nsPerMicro : Nat := 1000

/-- Unit in which the timeout report renders the elapsed duration. -/
inductive ElapsedUnit where
  | s
  | ms
  | us
  | ns
deriving DecidableEq

/-- util.rs lines 211-219: `as_secs`, `as_millis`, `as_micros` are tried in
that order and the first with a non-zero integer value is used; otherwise
the duration is rendered in nanoseconds. -/
def elapsedUnit (d : Nat) : ElapsedUnit :=
  if d / nsPerSec ≠ 0 then .s
  else if d / nsPerMilli ≠ 0 then .ms
  else if d / nsPerMicro ≠ 0 then .us
  else .ns

/-- util.rs lines 209-210: `timestamp = timestamp + Duration::from_secs(3);
let elapsed = timestamp.elapsed()`. `Instant` subtraction saturates at
zero, as does `Nat` subtraction. -/
def reportElapsed (now capturedAt : Instant) : Nat :=
  now - (capturedAt + 3 * nsPerSec)

/-- The holder part of a timeout report: either `Locked by: UNKNOWN`
(util.rs line 205) or the held-since duration plus the recorded holder
stack (util.rs lines 208-221). -/
inductive HolderReport where
  | unknown
  | holder (elapsedNs : Nat) (unit : ElapsedUnit) (stack : Backtrace)
deriving DecidableEq

/-- A full timeout report: the waiting stack (`calling_backtrace`, printed
at util.rs lines 196-198) and the holder part. -/
structure TimeoutReport where
  invokedBy : Backtrace
  holder : HolderReport
deriving DecidableEq

/-- util.rs lines 196-222: the body run by a watchdog once the deadline has
passed, given the state of the record cell at that moment. Returns the
report and the new contents of the record cell. -/
def watchdogTimeout (callingBacktrace : Backtrace) (now : Instant)
    (ls : RecLockState) (rec : BacktraceRecord) : TimeoutReport × BacktraceRecord :=
  let f := fetchRecord ls rec
  match f.contents with
  | none => ({ invokedBy := callingBacktrace, holder := .unknown }, f.newRecord)
  | some (stack, capturedAt) =>
    let e := reportElapsed now capturedAt
    ({ invokedBy := callingBacktrace, holder := .holder e (elapsedUnit e) stack },
      f.newRecord)

/-- What one iteration of the watchdog loop observes: the success flag
(util.rs line 193), the whole seconds elapsed since spawn
(`started.elapsed().as_secs()`, line 195), and the environment the timeout
body would see at that iteration. -/
structure WatchdogStep where
  flag : Bool
  elapsedSecs : Nat
  recLock : RecLockState
  record : BacktraceRecord
  now : Instant

/-- Terminal outcome of the watchdog loop; `running` means the observation
schedule was exhausted with the loop still spinning. -/
inductive WatchdogOutcome where
  | silent
  | reported (r : TimeoutReport) (newRecord : BacktraceRecord)
  | running

/-- util.rs lines 192-225: the spawned loop checks the success flag first
and exits silently when it is set; otherwise, once at least 3 whole
seconds have elapsed since spawn, it prints one report and exits;
otherwise it loops. -/
def watchdogRun (callingBacktrace : Backtrace) : List WatchdogStep → WatchdogOutcome
  | [] => .running
  | step :: rest =>
    if step.flag then .silent
    else if 3 ≤ step.elapsedSecs then
      let p := watchdogTimeout callingBacktrace step.now step.recLock step.record
      .reported p.1 p.2
    else watchdogRun callingBacktrace rest

/-- Atomic memory orderings used by the instrumentation. -/
inductive MemOrder where
  | acquire
  | release
deriving DecidableEq

/-- Events performed, in program order, by one acquisition call. -/
inductive AcqEvent where
  | spawnWatchdog
  | innerAcquired
  | flagStore (ord : MemOrder)
  | recordOverwrite
  | guardReturned
deriving DecidableEq

/-- util.rs lines 230-238, `RwLockDebug::read`: spawn the watchdog, block on
`inner.read()`, `success.store(true, Ordering::Release)`, overwrite the
record via `self.backtrace()`, return the guard. -/
def readTrace : List AcqEvent :=
  [.spawnWatchdog, .innerAcquired, .flagStore .release, .recordOverwrite, .guardReturned]

/-- util.rs lines 240-248, `RwLockDebug::write`: same order with
`inner.write()`. -/
def writeTrace : List AcqEvent :=
  [.spawnWatchdog, .innerAcquired, .flagStore .release, .recordOverwrite, .guardReturned]

/-- util.rs line 193: the watchdog loads the flag with `Ordering::Acquire`. -/
def watchdogLoadOrder : MemOrder := .acquire

/-- Diagnostic-only events of an acquisition trace. -/
def isDiagEvent : AcqEvent → Bool
  | .spawnWatchdog => true
  | .flagStore _ => true
  | .recordOverwrite => true
  | .innerAcquired => false
  | .guardReturned => false

/-- The debug-configuration lock (util.rs lines 166-171): the protected
value together with the shared record cell contents. -/
structure RwLockDebug (T : Type) where
  inner : T
  backtrace : BacktraceRecord

/-- util.rs lines 174-179: construction wraps the value and creates the
record cell holding `None`. -/
def RwLockDebug.new {T : Type} (v : T) : RwLockDebug T :=
  { inner := v, backtrace := none }

/-- The operations that can touch the record cell over the life of a lock. -/
inductive LockOp where
  | acquisitionComplete (b : Backtrace) (t : Instant)
  | watchdogTake
  | watchdogReadFallback
  | derefAccess
deriving DecidableEq

/-- Effect of each operation on the lock state: a completed acquisition
overwrites the record (util.rs 181-184); a timed-out watchdog whose
`try_write` succeeded empties it (line 201); the blocking-read fallback
(line 202) and any access through `Deref`/`DerefMut` (lines 250-262) leave
it unchanged. -/
def applyOp {T : Type} (s : RwLockDebug T) : LockOp → RwLockDebug T
  | .acquisitionComplete b t => { s with backtrace := some (b, t) }
  | .watchdogTake => { s with backtrace := none }
  | .watchdogReadFallback => s
  | .derefAccess => s

def applyOps {T : Type} (s : RwLockDebug T) (ops : List LockOp) : RwLockDebug T :=
  ops.foldl applyOp s

/-- The production-configuration lock (util.rs lines 163-164):
`type RwLockDebug<T> = RwLock<T>`, a plain lock holding only the value. -/
structure PlainRwLock (T : Type) where
  inner : T

def PlainRwLock.new {T : Type} (v : T) : PlainRwLock T :=
  { inner := v }

/-- A completed `read()` on the debug lock: the guard exposes the protected
value and the record is overwritten with the new holder stack and time. -/
def RwLockDebug.readAcq {T : Type} (s : RwLockDebug T) (b : Backtrace) (t : Instant) :
    T × RwLockDebug T :=
  (s.inner, { s with backtrace := some (b, t) })

/-- A completed `write()` on the debug lock whose guard is used to store
`v`: the record is overwritten with the new holder stack and time. -/
def RwLockDebug.writeSet {T : Type} (_s : RwLockDebug T) (v : T) (b : Backtrace)
    (t : Instant) : RwLockDebug T :=
  { inner := v, backtrace := some (b, t) }

/-- A completed `read()` on the plain lock: the guard exposes the value and
nothing else changes. -/
def PlainRwLock.readAcq {T : Type} (s : PlainRwLock T) : T × PlainRwLock T :=
  (s.inner, s)

/-- A completed `write()` on the plain lock whose guard is used to store
`v`. -/
def PlainRwLock.writeSet {T : Type} (_s : PlainRwLock T) (v : T) : PlainRwLock T :=
  { inner := v }

/-- Events of a plain-lock `read()`: just the blocking acquisition and the
guard. -/
def plainReadTrace : List AcqEvent :=
  [.innerAcquired, .guardReturned]

/-- Events of a plain-lock `write()`. -/
def plainWriteTrace : List AcqEvent :=
  [.innerAcquired, .guardReturned]

/-- Events of `read()` called on the inner lock reached through `Deref`
(util.rs lines 250-256): identical to a plain-lock read, no watchdog, no
record overwrite. -/
def derefReadTrace : List AcqEvent :=
  [.innerAcquired, .guardReturned]

/-- Events of `write()` called on the inner lock reached through `Deref` or
`DerefMut` (util.rs lines 250-262). -/
def derefWriteTrace : List AcqEvent :=
  [.innerAcquired, .guardReturned]

/-- util.rs lines 264-266: `ThreadWatchdog` owns one callback. The callback
is modelled by its effect on an instrumentation state `σ`. -/
structure ThreadWatchdog (σ : Type) where
  callback : σ → σ

/-- util.rs lines 268-275. -/
def ThreadWatchdog.new {σ : Type} (f : σ → σ) : ThreadWatchdog σ :=
  { callback := f }

/-- util.rs lines 277-281: `Drop::drop` invokes the callback once. -/
def ThreadWatchdog.dropRun {σ : Type} (w : ThreadWatchdog σ) (s : σ) : σ :=
  w.callback s

/-- How a scope body finishes. -/
inductive ExitKind where
  | normalReturn
  | earlyReturn
  | propagatedFailure
deriving DecidableEq

/-- Rust scope semantics for a `ThreadWatchdog` local: the body runs, and on
every exit path `drop` then runs exactly once. -/
def scopedRun {σ : Type} (w : ThreadWatchdog σ) (body : σ → ExitKind × σ) (s : σ) :
    ExitKind × σ :=
  let r := body s
  (r.1, w.dropRun r.2)

/-- A callback that counts its own invocations. -/
def cbCounter : ThreadWatchdog Nat :=
  ThreadWatchdog.new (fun n => n + 1)

/-- Whatever the state of the record lock, the contents the watchdog obtains
are the current contents of the cell. -/
theorem fetchRecord_contents (ls : RecLockState) (rec : BacktraceRecord) :
    (fetchRecord ls rec).contents = rec := by
  unfold fetchRecord
  split <;> rfl

/-- Timing out over an empty record cell always yields the UNKNOWN report and
leaves the cell empty. -/
theorem watchdogTimeout_record_none (bt : Backtrace) (now : Instant)
    (ls : RecLockState) :
    watchdogTimeout bt now ls none = ({ invokedBy := bt, holder := .unknown }, none) := by
  unfold watchdogTimeout fetchRecord
  split <;> rfl

/-- Timing out over a populated record cell yields a holder report built from
the recorded stack and capture time. -/
theorem watchdogTimeout_record_some (bt stack : Backtrace) (now capturedAt : Instant)
    (ls : RecLockState) :
    (watchdogTimeout bt now ls (some (stack, capturedAt))).1 =
      { invokedBy := bt,
        holder := .holder (reportElapsed now capturedAt)
          (elapsedUnit (reportElapsed now capturedAt)) stack } := by
  unfold watchdogTimeout fetchRecord
  split <;> rfl

/-- Every timeout report names the waiting stack that invoked the watchdog. -/
theorem watchdogTimeout_invokedBy (bt : Backtrace) (now : Instant)
    (ls : RecLockState) (rec : BacktraceRecord) :
    (watchdogTimeout bt now ls rec).1.invokedBy = bt := by
  cases rec with
  | none => rw [watchdogTimeout_record_none]
  | some p => rw [watchdogTimeout_record_some]

/-- Claim C1 counterexample: when another thread holds the record lock for
writing at the moment a timed-out watchdog accesses the shared record, the
`try_write` fails and the fallback `backtrace.read()` is a blocking
acquisition, so the access does block, contradicting the claim that it
never does. -/
theorem c1_fallback_read_blocks :
    (fetchRecord RecLockState.writeHeld (some ({ id := 0 }, 0))).blocked = true := by
  decide

/-- Claim C1 (amended): a timed-out watchdog first attempts a non-blocking
`try_write` on the record lock; if that fails it falls back to a plain
blocking read of the current contents. The access therefore stays
non-blocking exactly when no writer holds the record lock: the fallback
read can block while another thread holds the record lock for writing. -/
theorem c1_fetch_blocks_iff_writer (ls : RecLockState) (rec : BacktraceRecord) :
    (fetchRecord ls rec).blocked = false ↔ ls ≠ RecLockState.writeHeld := by
  cases ls <;> simp [fetchRecord, tryWriteSucceeds, readWaits]

/-- Claim C4: when a watchdog times out and the shared record holds nothing,
the report names the holder as UNKNOWN — a report shape carrying no holder
stack and no elapsed-time figure — the cell stays empty, and the watchdog
returns. -/
theorem c4_empty_record_reports_unknown (bt : Backtrace) (now : Instant)
    (ls : RecLockState) :
    watchdogTimeout bt now ls none = ({ invokedBy := bt, holder := .unknown }, none) :=
  watchdogTimeout_record_none bt now ls

/-- Claim C5: in a timeout report with a known holder the elapsed figure is
`(captured_at + 3s).elapsed()` — saturating subtraction of
`captured_at + 3·10⁹ ns` from the current instant — and the rendering unit
is the coarsest among seconds, milliseconds, microseconds whose integer
value is non-zero, falling back to nanoseconds. -/
theorem c5_elapsed_figure_and_unit (bt stack : Backtrace) (now capturedAt : Instant)
    (ls : RecLockState) :
    ((watchdogTimeout bt now ls (some (stack, capturedAt))).1.holder =
      .holder (now - (capturedAt + 3 * nsPerSec))
        (elapsedUnit (now - (capturedAt + 3 * nsPerSec))) stack)
    ∧ (∀ d : Nat,
        (elapsedUnit d = .s ↔ nsPerSec ≤ d)
        ∧ (elapsedUnit d = .ms ↔ nsPerMilli ≤ d ∧ d < nsPerSec)
        ∧ (elapsedUnit d = .us ↔ nsPerMicro ≤ d ∧ d < nsPerMilli)
        ∧ (elapsedUnit d = .ns ↔ d < nsPerMicro)) := by
  constructor
  · rw [watchdogTimeout_record_some]
    rfl
  · intro d
    have hs : d / nsPerSec = 0 ↔ d < nsPerSec :=
      Nat.div_eq_zero_iff (by norm_num [nsPerSec])
    have hm : d / nsPerMilli = 0 ↔ d < nsPerMilli :=
      Nat.div_eq_zero_iff (by norm_num [nsPerMilli])
    have hu : d / nsPerMicro = 0 ↔ d < nsPerMicro :=
      Nat.div_eq_zero_iff (by norm_num [nsPerMicro])
    have horder : nsPerMicro < nsPerMilli ∧ nsPerMilli < nsPerSec := by
      norm_num [nsPerMicro, nsPerMilli, nsPerSec]
    unfold elapsedUnit
    split_ifs with h1 h2 h3 <;> simp_all <;> omega

/-- Claim C10: a timed-out watchdog whose `try_write` succeeds takes the
record contents, leaving the cell empty; a later watchdog that times out
before any further completed acquisition therefore reports the holder as
UNKNOWN, although the first report did carry holder information. -/
theorem c10_take_consumes_holder (b bt1 bt2 : Backtrace) (t now1 now2 : Instant)
    (ls2 : RecLockState) :
    ((watchdogTimeout bt1 now1 RecLockState.free (some (b, t))).2 = none)
    ∧ ((watchdogTimeout bt1 now1 RecLockState.free (some (b, t))).1.holder ≠
        HolderReport.unknown)
    ∧ ((watchdogTimeout bt2 now2 ls2
        ((watchdogTimeout bt1 now1 RecLockState.free (some (b, t))).2)).1.holder =
        HolderReport.unknown) := by
  refine ⟨rfl, ?_, ?_⟩
  · rw [watchdogTimeout_record_some]
    simp
  · rw [show (watchdogTimeout bt1 now1 RecLockState.free (some (b, t))).2 = none from rfl,
      watchdogTimeout_record_none]

/-- Claim C2: in both `read` and `write` the underlying acquisition returns
first, then the success flag is stored true with release ordering (matched
by the watchdog acquire load), and only then is the shared record
overwritten; consequently any prefix of the acquisition in which the flag
has not yet been stored is a prefix in which the record has not yet been
overwritten. -/
theorem c2_flag_store_precedes_overwrite :
    (List.indexOf AcqEvent.innerAcquired readTrace <
        List.indexOf (AcqEvent.flagStore .release) readTrace
      ∧ List.indexOf (AcqEvent.flagStore .release) readTrace <
        List.indexOf AcqEvent.recordOverwrite readTrace)
    ∧ (List.indexOf AcqEvent.innerAcquired writeTrace <
        List.indexOf (AcqEvent.flagStore .release) writeTrace
      ∧ List.indexOf (AcqEvent.flagStore .release) writeTrace <
        List.indexOf AcqEvent.recordOverwrite writeTrace)
    ∧ watchdogLoadOrder = MemOrder.acquire
    ∧ (∀ n : Nat, AcqEvent.recordOverwrite ∈ readTrace.take n →
        AcqEvent.flagStore .release ∈ readTrace.take n)
    ∧ (∀ n : Nat, AcqEvent.recordOverwrite ∈ writeTrace.take n →
        AcqEvent.flagStore .release ∈ writeTrace.take n) := by
  refine ⟨by decide, by decide, rfl, ?_, ?_⟩ <;>
  · intro n h
    rcases Nat.lt_or_ge n 5 with h5 | h5
    · interval_cases n <;> revert h <;> decide
    · have htake : ∀ l : List AcqEvent, l.length = 5 → l.take n = l := by
        intro l hl
        apply List.take_of_length_le
        omega
      rw [htake _ (by decide)] at h ⊢
      decide

/-- Claim C2 witness: the prefix of length 4 of the read trace contains the
record overwrite, hence also the release store of the flag. -/
theorem c2_witness : AcqEvent.flagStore .release ∈ readTrace.take 4 :=
  c2_flag_store_precedes_overwrite.2.2.2.1 4 (by decide)

/-- Claim C3: a watchdog that observes the success flag true, with every
earlier poll under 3 whole seconds since spawn, exits silently with no
report; a watchdog that polls only a false flag and reaches a poll at 3 or
more seconds produces exactly one report, carrying the waiting stack that
invoked it, and exits. The two outcomes are terminal and mutually
exclusive by the shape of `WatchdogOutcome`. -/
theorem c3_watchdog_silent_or_one_report (bt : Backtrace) :
    (∀ (pre : List WatchdogStep) (s : WatchdogStep) (post : List WatchdogStep),
      (∀ p ∈ pre, p.elapsedSecs < 3) → s.flag = true →
      watchdogRun bt (pre ++ s :: post) = .silent)
    ∧ (∀ (pre : List WatchdogStep) (s : WatchdogStep) (post : List WatchdogStep),
      (∀ p ∈ pre, p.flag = false ∧ p.elapsedSecs < 3) →
      s.flag = false → 3 ≤ s.elapsedSecs →
      ∃ r nr, watchdogRun bt (pre ++ s :: post) = .reported r nr ∧ r.invokedBy = bt) := by
  constructor
  · intro pre
    induction pre with
    | nil =>
      intro s post _ hs
      simp [watchdogRun, hs]
    | cons p rest ih =>
      intro s post hlt hs
      have hp : p.elapsedSecs < 3 := hlt p (by simp)
      by_cases hpf : p.flag
      · simp [watchdogRun, hpf]
      · have h3 : ¬ 3 ≤ p.elapsedSecs := by omega
        simp only [List.cons_append, watchdogRun, hpf, h3, if_false]
        exact ih s post (fun q hq => hlt q (by simp [hq])) hs
  · intro pre
    induction pre with
    | nil =>
      intro s post _ hs h3
      refine ⟨(watchdogTimeout bt s.now s.recLock s.record).1,
        (watchdogTimeout bt s.now s.recLock s.record).2, ?_,
        watchdogTimeout_invokedBy bt s.now s.recLock s.record⟩
      simp [watchdogRun, hs, h3]
    | cons p rest ih =>
      intro s post hpre hs h3
      have hp := hpre p (by simp)
      have hpe : ¬ 3 ≤ p.elapsedSecs := by omega
      have hpf : ¬ p.flag = true := by simp [hp.1]
      simp only [List.cons_append, watchdogRun, hpf, hpe, if_false]
      exact ih s post (fun q hq => hpre q (by simp [hq])) hs h3

/-- Claim C3 witness: with a first poll seeing the flag already true the run
is silent; with a sole poll seeing a false flag at 3 elapsed seconds the
run reports once, naming the invoking stack. -/
theorem c3_witness :
    watchdogRun { id := 0 }
        [{ flag := true, elapsedSecs := 0, recLock := .free, record := none, now := 0 }] =
      .silent
    ∧ ∃ r nr, watchdogRun { id := 0 }
        [{ flag := false, elapsedSecs := 3, recLock := .free, record := none, now := 0 }] =
          .reported r nr ∧ r.invokedBy = { id := 0 } :=
  ⟨(c3_watchdog_silent_or_one_report { id := 0 }).1 []
      { flag := true, elapsedSecs := 0, recLock := .free, record := none, now := 0 } []
      (by simp) rfl,
    (c3_watchdog_silent_or_one_report { id := 0 }).2 []
      { flag := false, elapsedSecs := 3, recLock := .free, record := none, now := 0 } []
      (by simp) rfl (by decide)⟩

/-- Claim C6: for every body and every exit kind it produces — normal
return, early return, or propagating failure — the scope semantics run the
`ThreadWatchdog` callback exactly once on the way out: the invocation
count rises by exactly one and the exit kind is passed through unchanged. -/
theorem c6_callback_exactly_once (body : Nat → ExitKind × Nat) (s : Nat)
    (h : (body s).2 = s) :
    (scopedRun cbCounter body s).2 = s + 1
    ∧ (scopedRun cbCounter body s).1 = (body s).1 := by
  refine ⟨?_, rfl⟩
  show (body s).2 + 1 = s + 1
  rw [h]

/-- Claim C6 witness: a body exiting early from count 0 leaves exactly one
callback invocation. -/
theorem c6_witness :
    (scopedRun cbCounter (fun n => (ExitKind.earlyReturn, n)) 0).2 = 0 + 1
    ∧ (scopedRun cbCounter (fun n => (ExitKind.earlyReturn, n)) 0).1 =
      ((fun n => (ExitKind.earlyReturn, n)) 0).1 :=
  c6_callback_exactly_once (fun n => (ExitKind.earlyReturn, n)) 0 rfl

/-- The record cell stays empty across any sequence of operations that
contains no completed acquisition. -/
theorem applyOps_backtrace_none {T : Type} (ops : List LockOp) (s : RwLockDebug T)
    (hs : s.backtrace = none)
    (h : ∀ op ∈ ops, ∀ b t, op ≠ LockOp.acquisitionComplete b t) :
    (applyOps s ops).backtrace = none := by
  induction ops generalizing s with
  | nil => simpa [applyOps]
  | cons op rest ih =>
    have hop := h op (by simp)
    have hrest : ∀ q ∈ rest, ∀ b t, q ≠ LockOp.acquisitionComplete b t :=
      fun q hq => h q (by simp [hq])
    cases op with
    | acquisitionComplete b t => exact absurd rfl (hop b t)
    | watchdogTake =>
      simp only [applyOps, List.foldl_cons] at *
      exact ih { s with backtrace := none } rfl hrest
    | watchdogReadFallback =>
      simp only [applyOps, List.foldl_cons] at *
      exact ih s hs hrest
    | derefAccess =>
      simp only [applyOps, List.foldl_cons] at *
      exact ih s hs hrest

/-- Claim C7: constructing the instrumented lock with `v` makes the
underlying lock protect exactly `v` and the shared record cell empty, and
the cell stays empty under any sequence of operations in which no
acquisition completes. -/
theorem c7_new_protects_value_empty_record {T : Type} (v : T) (ops : List LockOp)
    (h : ∀ op ∈ ops, ∀ b t, op ≠ LockOp.acquisitionComplete b t) :
    (RwLockDebug.new v).inner = v
    ∧ (RwLockDebug.new v).backtrace = none
    ∧ (applyOps (RwLockDebug.new v) ops).backtrace = none :=
  ⟨rfl, rfl, applyOps_backtrace_none ops (RwLockDebug.new v) rfl h⟩

/-- Claim C7 witness: at `v = 0` and a watchdog take followed by a deref
access, the record cell is still empty. -/
theorem c7_witness :
    (RwLockDebug.new (0 : Nat)).inner = 0
    ∧ (RwLockDebug.new (0 : Nat)).backtrace = none
    ∧ (applyOps (RwLockDebug.new (0 : Nat))
        [LockOp.watchdogTake, LockOp.derefAccess]).backtrace = none :=
  c7_new_protects_value_empty_record 0 [LockOp.watchdogTake, LockOp.derefAccess]
    (by simp)

/-- Claim C8: in the production configuration the lock is the plain
reader/writer lock: a read guard exposes the same protected value as the
instrumented variant, a write stores the same value, the plain traces are
exactly the instrumented traces with the diagnostic events removed, and
the plain traces contain no diagnostic event at all. -/
theorem c8_release_config_is_plain_lock {T : Type} (v w : T) (b : Backtrace)
    (t : Instant) :
    ((PlainRwLock.new v).readAcq.1 = ((RwLockDebug.new v).readAcq b t).1)
    ∧ (((PlainRwLock.new v).writeSet w).inner = ((RwLockDebug.new v).writeSet w b t).inner)
    ∧ plainReadTrace = readTrace.filter (fun e => !isDiagEvent e)
    ∧ plainWriteTrace = writeTrace.filter (fun e => !isDiagEvent e)
    ∧ plainReadTrace.all (fun e => !isDiagEvent e) = true
    ∧ plainWriteTrace.all (fun e => !isDiagEvent e) = true :=
  ⟨rfl, rfl, by decide, by decide, by decide, by decide⟩

/-- Claim C9: the instrumented lock dereferences to its inner lock, and an
acquisition through the deref performs the same blocking inner acquisition
as the instrumented `read`/`write` but spawns no watchdog, overwrites no
record, and leaves the lock state unchanged — the diagnostics can be
bypassed through the public surface. -/
theorem c9_deref_bypasses_diagnostics {T : Type} (s : RwLockDebug T) :
    applyOp s LockOp.derefAccess = s
    ∧ AcqEvent.spawnWatchdog ∉ derefReadTrace
    ∧ AcqEvent.recordOverwrite ∉ derefReadTrace
    ∧ AcqEvent.spawnWatchdog ∉ derefWriteTrace
    ∧ AcqEvent.recordOverwrite ∉ derefWriteTrace
    ∧ AcqEvent.innerAcquired ∈ derefReadTrace
    ∧ AcqEvent.innerAcquired ∈ derefWriteTrace
    ∧ AcqEvent.innerAcquired ∈ readTrace
    ∧ AcqEvent.innerAcquired ∈ writeTrace
    ∧ AcqEvent.spawnWatchdog ∈ readTrace
    ∧ AcqEvent.spawnWatchdog ∈ writeTrace :=
  ⟨rfl, by decide, by decide, by decide, by decide, by decide, by decide, by decide,
    by decide, by decide, by decide⟩

end Gmpublisher
